import Mathlib

/-!
Verification of the course-management service (src/config.py, src/auth.py,
src/db.py, src/app.py) against its specification.

The Python source is shallowly embedded: pure functions become Lean
functions, database access becomes explicit state passing over a `Conn`
(committed / current transaction state), timestamps are `Nat` seconds,
and fallible operations return `Except` / `Option`.  Timestamp columns of
rows (`created_at`, `updated_at`, `enrolled_at`) are omitted: no claim
refers to them and they never influence control flow.
-/

namespace Sloka

/-! ## Configuration (src/config.py)

`Config.__init__`: `jwt_algorithm = "HS256"`, `jwt_expiration_hours = 24`
are fixed; only the secret varies with the environment. -/

structure Config where
  jwt_secret : String
  jwt_algorithm : String
  jwt_expiration_hours : Nat
  deriving DecidableEq, Repr

/-- Construction of `Config(mode)` in src/config.py: the algorithm is always `"HS256"` and
the expiration is always 24 hours; the secret comes from the environment. -/
def mkConfig (secret : String) : Config :=
  { jwt_secret := secret, jwt_algorithm := "HS256", jwt_expiration_hours := 24 }

/-! ## Tokens (src/auth.py)

A decoded JWT payload.  `create_access_token` encodes the caller `data`
dict (a `sub` plus extra claims) and adds `exp`, `type`, `iat`.  `type`
is optional in a decoded payload because handlers read it with
`payload.get("type")`; tokens from other signers holding the secret need
not carry it. -/

structure Payload where
  sub : String
  extra : List (String × String)
  type : Option String
  iat : Nat
  exp : Nat
  deriving DecidableEq, Repr

/-- The content of a well-formed signed JWT string: its claims, the secret
the MAC was computed with, and the algorithm named in its header. -/
structure SignedTok where
  payload : Payload
  secret : String
  alg : String
  deriving DecidableEq, Repr

/-- A word of an `Authorization` header after `str.split()`: either a plain
string that is not a well-formed signed JWT, or an encoded signed JWT. -/
inductive Word where
  | str (s : String)
  | jwt (t : SignedTok)
  deriving DecidableEq, Repr

/-- The decoded claims carried by an encoded token, when it is one. -/
def Word.payloadOpt : Word → Option Payload
  | .str _ => none
  | .jwt t => some t.payload

/-- Embedding of `AuthManager.create_access_token` (src/auth.py:51-83).  `expire` is
computed from a first `datetime.utcnow()` call (second `t1`) plus
`timedelta(hours=config.jwt_expiration_hours)`; `iat` comes from a second,
later `datetime.utcnow()` call (second `t2`).  The payload is signed with
`config.jwt_secret` under `config.jwt_algorithm` and returned encoded. -/
def create_access_token (cfg : Config) (sub : String) (extra : List (String × String))
    (user_type : String) (t1 t2 : Nat) : Word :=
  .jwt { payload := { sub := sub, extra := extra, type := some user_type,
                      iat := t2, exp := t1 + cfg.jwt_expiration_hours * 3600 },
         secret := cfg.jwt_secret, alg := cfg.jwt_algorithm }

/-- Embedding of `AuthManager.verify_token` (src/auth.py:85-110).  `jose.jwt.decode`
raises `JWTError` — mapped to `none` by the wrapping except block — when the
input is not a well-formed JWT, when the signature does not verify under
`config.jwt_secret`, when the algorithm of the token is not the configured one,
or when the `exp` claim is in the past (`exp < now`, the default jose
`ExpiredSignatureError` check with zero leeway). -/
def verify_token (cfg : Config) (now : Nat) (w : Word) : Option Payload :=
  match w with
  | .str _ => none
  | .jwt t =>
      if t.secret = cfg.jwt_secret ∧ t.alg = cfg.jwt_algorithm ∧ ¬ (t.payload.exp < now)
      then some t.payload else none

/-- Embedding of `AuthManager.verify_password` (src/auth.py:39-49).  The underlying
`pwd_context.verify` (passlib, an external collaborator) either returns a
boolean or raises — e.g. `UnknownHashError` on a malformed hash; it is
passed in as `verifier`.  The wrapper catches every exception and returns
`False`. -/
def verify_password (verifier : String → String → Except String Bool)
    (plain hashed : String) : Bool :=
  match verifier plain hashed with
  | .ok result => result
  | .error _ => false

/-- Modelled from the spec: the passlib function `CryptContext(schemes=["bcrypt"]).verify`
is outside the repository; per the spec it "recomputes using the embedded
salt/parameters" and errors on a hash string that is not a self-describing
bcrypt hash.  Used only to witness the exception handling of `verify_password`. -/
def sampleVerifier (plain hashed : String) : Except String Bool :=
  if hashed.data.take 4 = "$2b$".data then .ok (hashed = "$2b$" ++ plain)
  else .error "hash could not be identified"

/-- The Python builtin `int()` applied to the `sub` claim of a token (a `str`): succeeds
on a nonempty string of decimal digits — every issued token carries
`str(id)` — and raises `ValueError` (here `none`) otherwise. -/
def strToNat (s : String) : Option Nat :=
  if s.data ≠ [] ∧ s.data.all Char.isDigit then
    some (s.data.foldl (fun n c => n * 10 + (c.toNat - 48)) 0)
  else none

/-- Embedding of `AuthManager.validate_email` (src/auth.py:112-128): rejects an empty
email or one missing an `'@'` or a `'.'` character. -/
def validate_email (email : String) : Bool :=
  if email = "" ∨ ¬ email.data.contains '@' ∨ ¬ email.data.contains '.' then false else true

/-- Embedding of `AuthManager.validate_password` (src/auth.py:130-151). -/
def validate_password (password : String) : Bool × String :=
  if password = "" then (false, "Password is required")
  else if password.length < 6 then (false, "Password must be at least 6 characters long")
  else (true, "")

/-! ## Database state (schema from `Database.initialize_schema`, src/db.py)

Tables `students`, `admins`, `courses`, `enrollments`.  Constraints encoded
from the `CREATE TABLE` statements: `students.email` UNIQUE,
`admins.username` UNIQUE, `courses.created_by REFERENCES admins(id)`,
`enrollments.student_id REFERENCES students(id) ON DELETE CASCADE`,
`enrollments.course_id REFERENCES courses(id) ON DELETE CASCADE`,
`UNIQUE(student_id, course_id)` on enrollments.  `SERIAL` ids are the
`next_*` counters. -/

structure Student where
  id : Nat
  email : String
  password_hash : String
  name : Option String
  deriving DecidableEq, Repr

structure Admin where
  id : Nat
  username : String
  password_hash : String
  deriving DecidableEq, Repr

structure Course where
  id : Nat
  title : String
  description : String
  created_by : Nat
  deriving DecidableEq, Repr

structure Enrollment where
  student_id : Nat
  course_id : Nat
  deriving DecidableEq, Repr

structure DBState where
  students : List Student
  admins : List Admin
  courses : List Course
  enrollments : List Enrollment
  next_student_id : Nat
  next_admin_id : Nat
  next_course_id : Nat
  deriving DecidableEq, Repr

/-- The empty freshly-created schema. -/
def DBState.empty : DBState :=
  { students := [], admins := [], courses := [], enrollments := [],
    next_student_id := 1, next_admin_id := 1, next_course_id := 1 }

/-- A SQL statement, as executed by the server against the current
session state: a state transformer that either returns a result and a new
state or raises (constraint violation). -/
def Query (α : Type) := DBState → Except String (DBState × α)

/-! ### Individual SQL statements of src/db.py -/

/-- Statement `INSERT INTO students (email, password_hash, name) VALUES ... RETURNING
id, email, name, created_at` — raises on the UNIQUE(email) constraint. -/
def insStudentQ (email password_hash : String) (name : Option String) : Query Student :=
  fun s =>
    if s.students.any (fun r => r.email = email) then
      .error "duplicate key value violates unique constraint students_email_key"
    else
      let row : Student := { id := s.next_student_id, email := email,
                             password_hash := password_hash, name := name }
      .ok ({ s with students := s.students ++ [row],
                    next_student_id := s.next_student_id + 1 }, row)

/-- Statement `SELECT * FROM students WHERE email = %s`. -/
def selStudentByEmailQ (email : String) : Query (Option Student) :=
  fun s => .ok (s, s.students.find? (fun r => r.email = email))

/-- Statement `SELECT id, email, name, created_at FROM students ORDER BY created_at DESC`. -/
def selAllStudentsQ : Query (List Student) :=
  fun s => .ok (s, s.students.reverse)

/-- Statement `INSERT INTO admins (username, password_hash) VALUES ... ON CONFLICT
(username) DO NOTHING`. -/
def insAdminQ (username password_hash : String) : Query Unit :=
  fun s =>
    if s.admins.any (fun r => r.username = username) then .ok (s, ())
    else
      let row : Admin := { id := s.next_admin_id, username := username,
                           password_hash := password_hash }
      .ok ({ s with admins := s.admins ++ [row],
                    next_admin_id := s.next_admin_id + 1 }, ())

/-- Statement `SELECT * FROM admins WHERE username = %s`. -/
def selAdminByUsernameQ (username : String) : Query (Option Admin) :=
  fun s => .ok (s, s.admins.find? (fun r => r.username = username))

/-- Statement `INSERT INTO courses (title, description, created_by) VALUES ...
RETURNING ...` — raises on the `created_by REFERENCES admins(id)` foreign
key when no such admin exists. -/
def insCourseQ (title description : String) (created_by : Nat) : Query Course :=
  fun s =>
    if s.admins.any (fun a => a.id = created_by) then
      let row : Course := { id := s.next_course_id, title := title,
                            description := description, created_by := created_by }
      .ok ({ s with courses := s.courses ++ [row],
                    next_course_id := s.next_course_id + 1 }, row)
    else .error "insert or update on table courses violates foreign key constraint"

/-- Statement `UPDATE courses SET title = %s, description = %s, updated_at =
CURRENT_TIMESTAMP WHERE id = %s RETURNING ...` — zero rows when the id is
absent. -/
def updCourseQ (course_id : Nat) (title description : String) : Query (Option Course) :=
  fun s =>
    let updated := s.courses.map (fun c =>
      if c.id = course_id then { c with title := title, description := description } else c)
    .ok ({ s with courses := updated },
         updated.find? (fun c => c.id = course_id))

/-- Statement `DELETE FROM courses WHERE id = %s`.  The schema clause `ON DELETE CASCADE`
on `enrollments.course_id` removes dependent enrollment rows. -/
def delCourseQ (course_id : Nat) : Query Unit :=
  fun s =>
    .ok ({ s with courses := s.courses.filter (fun c => c.id ≠ course_id),
                  enrollments := s.enrollments.filter (fun e => e.course_id ≠ course_id) }, ())

/-- Statement `DELETE FROM students WHERE id = %s`, an operation no repository
function issues but whose effect the schema fixes: the `ON DELETE CASCADE`
on `enrollments.student_id` removes dependent enrollment rows. -/
def delStudentRowQ (student_id : Nat) : Query Unit :=
  fun s =>
    .ok ({ s with students := s.students.filter (fun r => r.id ≠ student_id),
                  enrollments := s.enrollments.filter (fun e => e.student_id ≠ student_id) }, ())

/-- Statement `SELECT id, title, description, created_at, updated_at FROM courses
ORDER BY created_at DESC`. -/
def selAllCoursesQ : Query (List Course) :=
  fun s => .ok (s, s.courses.reverse)

/-- Statement `SELECT * FROM courses WHERE id = %s`. -/
def selCourseByIdQ (course_id : Nat) : Query (Option Course) :=
  fun s => .ok (s, s.courses.find? (fun c => c.id = course_id))

/-- Statement `INSERT INTO enrollments (student_id, course_id) VALUES ... ON CONFLICT
(student_id, course_id) DO NOTHING RETURNING ...` — no row and no insert
when the pair already exists; raises on either foreign key when the
inserted pair references a missing student or course. -/
def insEnrollmentQ (student_id course_id : Nat) : Query (Option Enrollment) :=
  fun s =>
    if s.enrollments.any (fun e => e.student_id = student_id ∧ e.course_id = course_id) then
      .ok (s, none)
    else if s.students.any (fun r => r.id = student_id) ∧
            s.courses.any (fun c => c.id = course_id) then
      let row : Enrollment := { student_id := student_id, course_id := course_id }
      .ok ({ s with enrollments := s.enrollments ++ [row] }, some row)
    else .error "insert or update on table enrollments violates foreign key constraint"

/-- Statement `DELETE FROM enrollments WHERE student_id = %s AND course_id = %s`. -/
def delEnrollmentQ (student_id course_id : Nat) : Query Unit :=
  fun s =>
    let keep := s.enrollments.filter
      (fun e => ¬ (e.student_id = student_id ∧ e.course_id = course_id))
    .ok ({ s with enrollments := keep }, ())

/-- A row of the student-courses join. -/
structure CourseRow where
  id : Nat
  title : String
  description : String
  deriving DecidableEq, Repr

/-- The rows of the student-courses join on a state. -/
def studentCoursesRows (student_id : Nat) (s : DBState) : List CourseRow :=
  (s.enrollments.filter (fun e => e.student_id = student_id)).reverse.filterMap
    (fun e => (s.courses.find? (fun c => c.id = e.course_id)).map
      (fun c => { id := c.id, title := c.title, description := c.description }))

/-- Statement `SELECT c.id, c.title, c.description, e.enrolled_at FROM courses c INNER
JOIN enrollments e ON c.id = e.course_id WHERE e.student_id = %s ORDER BY
e.enrolled_at DESC`. -/
def selStudentCoursesQ (student_id : Nat) : Query (List CourseRow) :=
  fun s => .ok (s, studentCoursesRows student_id s)

/-- A row of the course-students join. -/
structure StudentRow where
  id : Nat
  email : String
  name : Option String
  deriving DecidableEq, Repr

/-- The rows of the course-students join on a state. -/
def courseStudentsRows (course_id : Nat) (s : DBState) : List StudentRow :=
  (s.enrollments.filter (fun e => e.course_id = course_id)).reverse.filterMap
    (fun e => (s.students.find? (fun r => r.id = e.student_id)).map
      (fun r => { id := r.id, email := r.email, name := r.name }))

/-- Statement `SELECT s.id, s.email, s.name, e.enrolled_at FROM students s INNER JOIN
enrollments e ON s.id = e.student_id WHERE e.course_id = %s ORDER BY
e.enrolled_at DESC`. -/
def selCourseStudentsQ (course_id : Nat) : Query (List StudentRow) :=
  fun s => .ok (s, courseStudentsRows course_id s)

/-! ## The connection (`Database`, src/db.py)

`connect()` sets `autocommit = False`, so the session runs one long
transaction.  `execute_query` commits only on the `fetch=False` branch;
on the `fetch=True` branch (every `SELECT` and every `INSERT/UPDATE ...
RETURNING`) it fetches and returns without committing.  On any exception it
calls `connection.rollback()`, discarding all uncommitted work, and
re-raises. -/

structure Conn where
  committed : DBState
  current : DBState
  deriving DecidableEq, Repr

/-- A fresh connection onto a committed state. -/
def Conn.fresh (s : DBState) : Conn := { committed := s, current := s }

/-- Embedding of `Database.execute_query` (src/db.py:49-84). -/
def execute_query (fetch : Bool) (q : Query α) (c : Conn) : Conn × Except String α :=
  match q c.current with
  | .ok (s, r) =>
      if fetch then ({ c with current := s }, .ok r)
      else ({ committed := s, current := s }, .ok r)
  | .error e => ({ committed := c.committed, current := c.committed }, .error e)

/-! ### `Database` methods (src/db.py).  Each re-raises query failures to
its caller; the `fetch` flag is the one the Python method passes. -/

/-- Embedding of `Database.create_student` (src/db.py:161-176): `fetch=True` (default). -/
def Db.create_student (email password_hash : String) (name : Option String)
    (c : Conn) : Conn × Except String Student :=
  execute_query true (insStudentQ email password_hash name) c

/-- Embedding of `Database.get_student_by_email` (src/db.py:178-189). -/
def Db.get_student_by_email (email : String) (c : Conn) : Conn × Except String (Option Student) :=
  execute_query true (selStudentByEmailQ email) c

/-- Embedding of `Database.get_all_students` (src/db.py:191-202). -/
def Db.get_all_students (c : Conn) : Conn × Except String (List Student) :=
  execute_query true selAllStudentsQ c

/-- Embedding of `Database.seed_admin` (src/db.py:143-158): `fetch=False`; failures are
swallowed (logged, not re-raised). -/
def Db.seed_admin (username password_hash : String) (c : Conn) : Conn :=
  (execute_query false (insAdminQ username password_hash) c).1

/-- Embedding of `Database.create_course` (src/db.py:205-221): `fetch=True`. -/
def Db.create_course (title description : String) (created_by : Nat)
    (c : Conn) : Conn × Except String Course :=
  execute_query true (insCourseQ title description created_by) c

/-- Embedding of `Database.update_course` (src/db.py:223-238): `fetch=True`. -/
def Db.update_course (course_id : Nat) (title description : String)
    (c : Conn) : Conn × Except String (Option Course) :=
  execute_query true (updCourseQ course_id title description) c

/-- Embedding of `Database.delete_course` (src/db.py:240-251): `fetch=False`. -/
def Db.delete_course (course_id : Nat) (c : Conn) : Conn × Except String Unit :=
  execute_query false (delCourseQ course_id) c

/-- Embedding of `Database.get_course_by_id` (src/db.py:267-278). -/
def Db.get_course_by_id (course_id : Nat) (c : Conn) : Conn × Except String (Option Course) :=
  execute_query true (selCourseByIdQ course_id) c

/-- Embedding of `Database.enroll_student` (src/db.py:280-296): `fetch=True`;
`None` result means the `ON CONFLICT ... DO NOTHING` fired. -/
def Db.enroll_student (student_id course_id : Nat)
    (c : Conn) : Conn × Except String (Option Enrollment) :=
  execute_query true (insEnrollmentQ student_id course_id) c

/-- Embedding of `Database.unenroll_student` (src/db.py:298-309): `fetch=False`. -/
def Db.unenroll_student (student_id course_id : Nat) (c : Conn) : Conn × Except String Unit :=
  execute_query false (delEnrollmentQ student_id course_id) c

/-- Embedding of `Database.get_student_courses` (src/db.py:311-329). -/
def Db.get_student_courses (student_id : Nat) (c : Conn) : Conn × Except String (List CourseRow) :=
  execute_query true (selStudentCoursesQ student_id) c

/-- Embedding of `Database.get_course_students` (src/db.py:331-349). -/
def Db.get_course_students (course_id : Nat) (c : Conn) : Conn × Except String (List StudentRow) :=
  execute_query true (selCourseStudentsQ course_id) c

/-- Embedding of `Database.get_admin_by_username` (src/db.py:352-362). -/
def Db.get_admin_by_username (username : String) (c : Conn) : Conn × Except String (Option Admin) :=
  execute_query true (selAdminByUsernameQ username) c

/-! ## Request handlers (src/app.py) -/

/-- The outcome a handler sends back: a 200 body, or an `HTTPException`
with a status code and a `detail` string. -/
inductive HandlerOut (α : Type) where
  | ok (body : α)
  | err (status : Nat) (detail : String)
  deriving DecidableEq, Repr

/-- Whether an `Authorization` header word is the bearer scheme tag:
`parts[0].lower() == "bearer"`, the lowercasing taken characterwise.  An
encoded JWT always contains `'.'` separators, so it never lowercases to
`"bearer"`. -/
def wordIsBearer : Word → Bool
  | .str s => s.data.map Char.toLower = "bearer".data
  | .jwt _ => false

/-- Embedding of `get_current_user` (src/app.py:106-146).  The header is `None` or its
`str.split()` word list.  401 when the header is absent, when it is not
exactly two words with a (case-insensitive) `Bearer` scheme, or when
`verify_token` returns `None`. -/
def get_current_user (cfg : Config) (now : Nat) (authorization : Option (List Word)) :
    Except (Nat × String) Payload :=
  match authorization with
  | none => .error (401, "Authorization header required")
  | some parts =>
      match parts with
      | [scheme, token] =>
          if wordIsBearer scheme then
            match verify_token cfg now token with
            | some payload => .ok payload
            | none => .error (401, "Invalid or expired token")
          else .error (401, "Invalid authorization header format")
      | _ => .error (401, "Invalid authorization header format")

/-- An authenticated endpoint: FastAPI resolves the `get_current_user`
dependency before the route body runs, so on auth failure the handler is
never entered and the connection is untouched. -/
def with_auth (cfg : Config) (now : Nat) (authorization : Option (List Word))
    (handler : Payload → Conn → Conn × HandlerOut α) (c : Conn) : Conn × HandlerOut α :=
  match get_current_user cfg now authorization with
  | .error (status, detail) => (c, .err status detail)
  | .ok payload => handler payload c

/-- Embedding of `student_signup` (src/app.py:183-230).  `hashFn` is
`auth_manager.hash_password` (passlib bcrypt, external).  The 200 body also
carries the new student row and a token from `create_access_token`; the
token is a pure function of the row and the clock and does not affect
control flow, so the body here keeps the message and the row. -/
def App.student_signup (hashFn : String → String) (email password : String)
    (name : Option String) (c : Conn) : Conn × HandlerOut (String × Student) :=
  if ¬ validate_email email then (c, .err 400 "Invalid email format")
  else if ¬ (validate_password password).1 then (c, .err 400 (validate_password password).2)
  else
    match Db.get_student_by_email email c with
    | (c1, .error _) => (c1, .err 500 "Signup failed")
    | (c1, .ok (some _)) => (c1, .err 400 "Email already registered")
    | (c1, .ok none) =>
        match Db.create_student email (hashFn password) name c1 with
        | (c2, .error _) => (c2, .err 500 "Signup failed")
        | (c2, .ok row) => (c2, .ok ("Student created successfully", row))

/-- Embedding of `enroll_student` (src/app.py:450-483).  Admin only; 404 when the course
does not exist; the `None` row from `Db.enroll_student` becomes the
"already enrolled" 200 message. -/
def App.enroll_student (payload : Payload) (student_id course_id : Nat)
    (c : Conn) : Conn × HandlerOut String :=
  if payload.type ≠ some "admin" then (c, .err 403 "Admin access required")
  else
    match Db.get_course_by_id course_id c with
    | (c1, .error _) => (c1, .err 500 "Failed to enroll student")
    | (c1, .ok none) => (c1, .err 404 "Course not found")
    | (c1, .ok (some _)) =>
        match Db.enroll_student student_id course_id c1 with
        | (c2, .error _) => (c2, .err 500 "Failed to enroll student")
        | (c2, .ok none) => (c2, .ok "Student already enrolled in this course")
        | (c2, .ok (some _)) => (c2, .ok "Student enrolled successfully")

/-- Embedding of `delete_course` (src/app.py:384-414).  Admin only; 404 when the course
does not exist. -/
def App.delete_course (payload : Payload) (course_id : Nat)
    (c : Conn) : Conn × HandlerOut String :=
  if payload.type ≠ some "admin" then (c, .err 403 "Admin access required")
  else
    match Db.get_course_by_id course_id c with
    | (c1, .error _) => (c1, .err 500 "Failed to delete course")
    | (c1, .ok none) => (c1, .err 404 "Course not found")
    | (c1, .ok (some _)) =>
        match Db.delete_course course_id c1 with
        | (c2, .error _) => (c2, .err 500 "Failed to delete course")
        | (c2, .ok _) => (c2, .ok "Course deleted successfully")

/-- Embedding of `get_student_courses` (src/app.py:514-532).  The 403 branch fires only
when `current_user.get("type") == "student"` and `int(current_user["sub"])`
differs from the path parameter `student_id`; `int` on a non-numeric `sub` raises
`ValueError`, which the broad `except` turns into a 500.  Any payload whose
type is not `"student"` skips the check entirely. -/
def App.get_student_courses (payload : Payload) (student_id : Nat)
    (c : Conn) : Conn × HandlerOut (List CourseRow) :=
  let fetch := fun (c0 : Conn) =>
    match Db.get_student_courses student_id c0 with
    | (c1, .error _) => (c1, HandlerOut.err 500 "Failed to fetch student courses")
    | (c1, .ok rows) => (c1, HandlerOut.ok rows)
  if payload.type = some "student" then
    match strToNat payload.sub with
    | none => (c, .err 500 "Failed to fetch student courses")
    | some n => if n ≠ student_id then (c, .err 403 "Access denied") else fetch c
  else fetch c

/-! ## Invariants and concrete scenario states -/

/-- Referential integrity of the enrollments table: every enrollment row
references an existing student and an existing course (the two foreign
keys of `initialize_schema`). -/
def refIntegrity (s : DBState) : Prop :=
  ∀ e ∈ s.enrollments,
    (∃ r ∈ s.students, r.id = e.student_id) ∧ (∃ co ∈ s.courses, co.id = e.course_id)

instance (s : DBState) : Decidable (refIntegrity s) := by
  unfold refIntegrity; infer_instance

/-- Rows of the students table carrying a given email. -/
def countEmail (email : String) (s : DBState) : Nat :=
  (s.students.filter (fun r => r.email = email)).length

/-- A committed state holding only the seeded default admin. -/
def seededState : DBState :=
  { DBState.empty with admins := [{ id := 1, username := "admin", password_hash := "hA" }],
                       next_admin_id := 2 }

/-- A committed state with the seeded admin, one student and one course. -/
def demoState : DBState :=
  { students := [{ id := 1, email := "a@x.com", password_hash := "h1", name := none }],
    admins := [{ id := 1, username := "admin", password_hash := "hA" }],
    courses := [{ id := 1, title := "T", description := "D", created_by := 1 }],
    enrollments := [],
    next_student_id := 2, next_admin_id := 2, next_course_id := 2 }

/-- A validly-signed payload whose `type` is neither `"student"` nor
`"admin"`. -/
def servicePayload : Payload :=
  { sub := "2", extra := [], type := some "service", iat := 0, exp := 86400 }

/-- A payload as carried by an admin token issued at time 0. -/
def adminPayload : Payload :=
  { sub := "1", extra := [("username", "admin")], type := some "admin", iat := 0, exp := 86400 }

/-! # Theorems -/

/-- C1: verifying a token produced by `create_access_token` under the same
secret and algorithm at any time before the stored expiry returns a
payload with the same subject id and role tag; at any time strictly after
the TTL has elapsed (counted from the issuance clock reads `t1 ≤ t2`),
verification returns `none`. -/
theorem verify_of_issue_roundtrip (secret sub : String) (extra : List (String × String))
    (user_type : String) (t1 t2 t : Nat) (h12 : t1 ≤ t2) :
    (t < t1 + 24 * 3600 →
      ∃ p, verify_token (mkConfig secret) t
             (create_access_token (mkConfig secret) sub extra user_type t1 t2) = some p ∧
           p.sub = sub ∧ p.type = some user_type) ∧
    (t2 + 24 * 3600 < t →
      verify_token (mkConfig secret) t
        (create_access_token (mkConfig secret) sub extra user_type t1 t2) = none) := by
  constructor
  · intro hlt
    refine ⟨{ sub := sub, extra := extra, type := some user_type,
              iat := t2, exp := t1 + 24 * 3600 }, ?_, rfl, rfl⟩
    simp only [create_access_token, verify_token, mkConfig]
    rw [if_pos]
    exact ⟨trivial, trivial, by omega⟩
  · intro hgt
    simp only [create_access_token, verify_token, mkConfig]
    rw [if_neg]
    intro h
    omega

/-- Witness for C1 at a concrete issuance: valid 100 seconds in, invalid
one second past the TTL. -/
theorem verify_of_issue_roundtrip_witness :
    (∃ p, verify_token (mkConfig "k") 100
            (create_access_token (mkConfig "k") "1" [] "student" 0 0) = some p ∧
          p.sub = "1" ∧ p.type = some "student") ∧
    verify_token (mkConfig "k") 86401
      (create_access_token (mkConfig "k") "1" [] "student" 0 0) = none :=
  ⟨(verify_of_issue_roundtrip "k" "1" [] "student" 0 0 100 (by decide)).1 (by decide),
   (verify_of_issue_roundtrip "k" "1" [] "student" 0 0 86401 (by decide)).2 (by decide)⟩

/-- C4 counterexample: `create_access_token` reads the clock twice
(`expire` from the first `datetime.utcnow()`, `iat` from the second); when
the two reads fall in different seconds the encoded `exp` is not
`iat + 24h`.  Here the first read is at second 0 and the second at
second 1. -/
theorem exp_not_iat_plus_ttl :
    ∃ p, (create_access_token (mkConfig "k") "1" [] "student" 0 1).payloadOpt = some p ∧
         p.exp ≠ p.iat + 24 * 3600 :=
  ⟨{ sub := "1", extra := [], type := some "student", iat := 1, exp := 86400 },
   rfl, by decide⟩

/-- C4 amended: the encoded `exp` equals the first clock read plus the
fixed 24-hour TTL, and equals `iat + 24h` whenever the two clock reads of
`create_access_token` fall in the same second. -/
theorem exp_eq_first_clock_plus_ttl (secret sub : String) (extra : List (String × String))
    (user_type : String) (t1 t2 : Nat) :
    ∃ p, (create_access_token (mkConfig secret) sub extra user_type t1 t2).payloadOpt = some p ∧
         p.exp = t1 + 24 * 3600 ∧ (t1 = t2 → p.exp = p.iat + 24 * 3600) := by
  refine ⟨{ sub := sub, extra := extra, type := some user_type,
            iat := t2, exp := t1 + 24 * 3600 }, rfl, rfl, ?_⟩
  intro h
  simp [h]

/-- Witness for C4 (amended) with both clock reads at second 5. -/
theorem exp_eq_first_clock_plus_ttl_witness :
    ∃ p, (create_access_token (mkConfig "k") "1" [] "student" 5 5).payloadOpt = some p ∧
         p.exp = 5 + 24 * 3600 ∧ p.exp = p.iat + 24 * 3600 := by
  obtain ⟨p, h1, h2, h3⟩ := exp_eq_first_clock_plus_ttl "k" "1" [] "student" 5 5
  exact ⟨p, h1, h2, h3 rfl⟩

/-- C7: `verify_password` never propagates an exception of the underlying
passlib verifier: a raising verifier yields `false`, and a returning
returning verifier has its boolean passed through. -/
theorem verify_password_never_raises
    (verifier : String → String → Except String Bool) (plain hashed : String) :
    (∀ e, verifier plain hashed = .error e → verify_password verifier plain hashed = false) ∧
    (∀ b, verifier plain hashed = .ok b → verify_password verifier plain hashed = b) := by
  constructor
  · intro e he
    simp [verify_password, he]
  · intro b hb
    simp [verify_password, hb]

/-- Witness for C7: on a string that is not a bcrypt hash the modelled
verifier raises, and `verify_password` returns `false`. -/
theorem verify_password_never_raises_witness :
    verify_password sampleVerifier "secret1" "not-a-hash" = false :=
  (verify_password_never_raises sampleVerifier "secret1" "not-a-hash").1
    "hash could not be identified" (by simp [sampleVerifier])

/-- C6: for any authenticated endpoint handler, a request whose
`Authorization` header is absent, is not exactly `Bearer <token>`, or
carries a token failing verification, gets a 401 and the handler — hence
any domain logic or store operation — never runs: the connection is
returned untouched, for every possible handler. -/
theorem auth_failure_rejected_before_domain_logic {α : Type}
    (cfg : Config) (now : Nat) (c : Conn)
    (handler : Payload → Conn → Conn × HandlerOut α) :
    (with_auth cfg now none handler c = (c, .err 401 "Authorization header required")) ∧
    (∀ parts, (¬ ∃ scheme token, parts = [scheme, token] ∧ wordIsBearer scheme = true) →
      with_auth cfg now (some parts) handler c =
        (c, .err 401 "Invalid authorization header format")) ∧
    (∀ scheme token, wordIsBearer scheme = true → verify_token cfg now token = none →
      with_auth cfg now (some [scheme, token]) handler c =
        (c, .err 401 "Invalid or expired token")) := by
  refine ⟨rfl, ?_, ?_⟩
  · intro parts h
    match parts with
    | [] => rfl
    | [_] => rfl
    | _ :: _ :: _ :: _ => rfl
    | [a, b] =>
        by_cases hb : wordIsBearer a = true
        · exact absurd ⟨a, b, rfl, hb⟩ h
        · simp [with_auth, get_current_user, hb]
  · intro scheme token hb hv
    simp [with_auth, get_current_user, hb, hv]

/-- Witness for C6: a missing header, a one-word header, and a well-formed
header carrying a token signed under a different secret are each rejected
with 401 and an unchanged connection. -/
theorem auth_failure_rejected_witness :
    (with_auth (mkConfig "k") 0 none
       (fun _ c => (c, HandlerOut.ok "ran")) (Conn.fresh DBState.empty) =
      (Conn.fresh DBState.empty, .err 401 "Authorization header required")) ∧
    (with_auth (mkConfig "k") 0 (some [Word.str "Basic"])
       (fun _ c => (c, HandlerOut.ok "ran")) (Conn.fresh DBState.empty) =
      (Conn.fresh DBState.empty, .err 401 "Invalid authorization header format")) ∧
    (with_auth (mkConfig "k") 0
       (some [Word.str "Bearer",
              Word.jwt { payload := servicePayload, secret := "other", alg := "HS256" }])
       (fun _ c => (c, HandlerOut.ok "ran")) (Conn.fresh DBState.empty) =
      (Conn.fresh DBState.empty, .err 401 "Invalid or expired token")) :=
  ⟨(auth_failure_rejected_before_domain_logic (mkConfig "k") 0 (Conn.fresh DBState.empty)
      (fun _ c => (c, HandlerOut.ok "ran"))).1,
   (auth_failure_rejected_before_domain_logic (mkConfig "k") 0 (Conn.fresh DBState.empty)
      (fun _ c => (c, HandlerOut.ok "ran"))).2.1 [Word.str "Basic"]
      (by rintro ⟨s, t, heq, -⟩; exact absurd heq (by simp)),
   (auth_failure_rejected_before_domain_logic (mkConfig "k") 0 (Conn.fresh DBState.empty)
      (fun _ c => (c, HandlerOut.ok "ran"))).2.2 (Word.str "Bearer")
      (Word.jwt { payload := servicePayload, secret := "other", alg := "HS256" })
      (by decide) (by simp [verify_token, mkConfig])⟩

/-- C3 counterexample: a verified payload whose `type` is `"service"` —
neither the admin role nor the student role with matching id — is granted
access to the course list of student 1, contradicting "no other caller is
granted access". -/
theorem nonrole_caller_granted :
    servicePayload.type ≠ some "admin" ∧ servicePayload.type ≠ some "student" ∧
    App.get_student_courses servicePayload 1 (Conn.fresh demoState) =
      (Conn.fresh demoState, .ok []) := by
  refine ⟨by decide, by decide, ?_⟩
  rfl

/-- C3 amended: the handler denies with 403 exactly the callers whose
`type` is `"student"` with a numeric subject id different from the
requested `student_id`; admins, the matching student, and any caller whose
type is neither `"student"` nor `"admin"` are granted (a student token
with a non-numeric subject yields a 500 instead). -/
theorem get_student_courses_access (p : Payload) (sid : Nat) (c : Conn) :
    ((App.get_student_courses p sid c).2 = HandlerOut.err 403 "Access denied" ↔
       p.type = some "student" ∧ ∃ n, strToNat p.sub = some n ∧ n ≠ sid) ∧
    (p.type = some "student" → strToNat p.sub = some sid →
       App.get_student_courses p sid c = (c, .ok (studentCoursesRows sid c.current))) ∧
    (p.type ≠ some "student" →
       App.get_student_courses p sid c = (c, .ok (studentCoursesRows sid c.current))) := by
  refine ⟨?_, ?_, ?_⟩
  · constructor
    · intro h
      by_cases ht : p.type = some "student"
      · refine ⟨ht, ?_⟩
        cases hn : strToNat p.sub with
        | none => simp [App.get_student_courses, ht, hn] at h
        | some n =>
            by_cases hne : n = sid
            · simp [App.get_student_courses, ht, hn, hne,
                    Db.get_student_courses, execute_query, selStudentCoursesQ] at h
            · exact ⟨n, rfl, hne⟩
      · simp [App.get_student_courses, ht,
              Db.get_student_courses, execute_query, selStudentCoursesQ] at h
    · rintro ⟨ht, n, hn, hne⟩
      simp [App.get_student_courses, ht, hn, hne]
  · intro ht hn
    simp only [App.get_student_courses, ht, hn, if_pos]
    simp [Db.get_student_courses, execute_query, selStudentCoursesQ]
  · intro ht
    simp only [App.get_student_courses, if_neg ht]
    simp [Db.get_student_courses, execute_query, selStudentCoursesQ]

/-- Witness for C3 (amended): an admin payload is granted the courses of
any student; a student payload with subject 1 is denied the courses of
student 2 with 403. -/
theorem get_student_courses_access_witness :
    (App.get_student_courses adminPayload 2 (Conn.fresh demoState) =
       (Conn.fresh demoState, .ok (studentCoursesRows 2 demoState))) ∧
    (App.get_student_courses
        { sub := "1", extra := [], type := some "student", iat := 0, exp := 86400 } 2
        (Conn.fresh demoState)).2 = HandlerOut.err 403 "Access denied" :=
  ⟨(get_student_courses_access adminPayload 2 (Conn.fresh demoState)).2.2 (by decide),
   (get_student_courses_access
       { sub := "1", extra := [], type := some "student", iat := 0, exp := 86400 } 2
       (Conn.fresh demoState)).1.2 ⟨rfl, 1, by decide, by decide⟩⟩

/-- C10: a validly signed, unexpired token whose `type` claim is neither
`"student"` nor `"admin"` is granted `GET /api/students/{sid}/courses` for
any `sid`: the handler denies only callers typed exactly `"student"` with a
mismatched subject. -/
theorem nonstudent_nonadmin_type_granted (cfg : Config) (now : Nat) (w : Word)
    (p : Payload) (sid : Nat) (c : Conn)
    (hv : verify_token cfg now w = some p)
    (hs : p.type ≠ some "student") (ha : p.type ≠ some "admin") :
    App.get_student_courses p sid c = (c, .ok (studentCoursesRows sid c.current)) := by
  simp only [App.get_student_courses, if_neg hs]
  simp [Db.get_student_courses, execute_query, selStudentCoursesQ]

/-- Witness for C10: a token with type `"service"`, signed with the
configured secret and unexpired at time 0, is granted the courses of
student 1. -/
theorem nonstudent_nonadmin_type_granted_witness :
    App.get_student_courses servicePayload 1 (Conn.fresh demoState) =
      (Conn.fresh demoState, .ok (studentCoursesRows 1 demoState)) :=
  nonstudent_nonadmin_type_granted (mkConfig "k") 0
    (Word.jwt { payload := servicePayload, secret := "k", alg := "HS256" })
    servicePayload 1 (Conn.fresh demoState)
    (by simp [verify_token, mkConfig, servicePayload]) (by decide) (by decide)

/-- C2: the code violates per-write atomicity.  `execute_query` commits
only on its `fetch=False` branch, so the `INSERT ... RETURNING` behind
`create_student` (reported successful to the caller) stays uncommitted;
when a later, unrelated statement fails — here `create_course` with a
`created_by` that violates the admins foreign key — the `rollback()` in
the exception handler of `execute_query` erases the student, and a subsequent
read on the connection no longer sees the row. -/
theorem successful_write_undone_by_later_failure :
    (Db.create_student "a@x.com" "h1" none (Conn.fresh seededState)).2 =
      .ok { id := 1, email := "a@x.com", password_hash := "h1", name := none } ∧
    (Db.create_course "T" "D" 99
       (Db.create_student "a@x.com" "h1" none (Conn.fresh seededState)).1).2 =
      .error "insert or update on table courses violates foreign key constraint" ∧
    (Db.get_student_by_email "a@x.com"
       (Db.create_course "T" "D" 99
          (Db.create_student "a@x.com" "h1" none (Conn.fresh seededState)).1).1).2 =
      .ok none :=
  ⟨rfl, rfl, rfl⟩

/-- C9 counterexample: a signup request whose email is already registered
but whose password fails validation is rejected with the password detail,
not with 400 "Email already registered" as the claim requires for every
such request. -/
theorem duplicate_email_weak_password_detail :
    countEmail "a@x.com" demoState = 1 ∧
    (App.student_signup (fun p => p) "a@x.com" "x" none (Conn.fresh demoState)).2 =
      HandlerOut.err 400 "Password must be at least 6 characters long" ∧
    (App.student_signup (fun p => p) "a@x.com" "x" none (Conn.fresh demoState)).2 ≠
      HandlerOut.err 400 "Email already registered" :=
  ⟨rfl, rfl, by decide⟩

/-- C9 amended: a signup request that passes email and password validation
and whose email is already registered fails with 400 "Email already
registered", and the store is left untouched, so the number of student
rows with that email (one, by the unique constraint) does not change; no
second row is ever created. -/
theorem signup_duplicate_email_no_second_row
    (hashFn : String → String) (email password : String) (name : Option String) (c : Conn)
    (hemail : validate_email email = true)
    (hpw : (validate_password password).1 = true)
    (hdup : (c.current.students.find? (fun r => r.email = email)).isSome = true) :
    App.student_signup hashFn email password name c =
      (c, .err 400 "Email already registered") ∧
    countEmail email ((App.student_signup hashFn email password name c).1).current =
      countEmail email c.current := by
  obtain ⟨st, hst⟩ := Option.isSome_iff_exists.mp hdup
  have h1 : App.student_signup hashFn email password name c =
      (c, .err 400 "Email already registered") := by
    simp [App.student_signup, hemail, hpw,
          Db.get_student_by_email, execute_query, selStudentByEmailQ, hst]
  exact ⟨h1, by rw [h1]⟩

/-- Witness for C9 (amended): signing up again with the registered email
`a@x.com` and a valid password is rejected and changes nothing. -/
theorem signup_duplicate_email_no_second_row_witness :
    App.student_signup (fun p => p) "a@x.com" "secret1" none (Conn.fresh demoState) =
      (Conn.fresh demoState, .err 400 "Email already registered") :=
  (signup_duplicate_email_no_second_row (fun p => p) "a@x.com" "secret1" none
    (Conn.fresh demoState) (by decide) (by decide) (by decide)).1

/-- C5: enrolling an existing student in an existing course and then
enrolling the same pair again: the first call succeeds, leaves exactly one
enrollment row for the pair, and the second call returns the 200 "already
enrolled" message, changes no state, and still leaves exactly one row. -/
theorem enroll_twice_one_row (p : Payload) (sid cid : Nat) (c : Conn)
    (hadmin : p.type = some "admin")
    (hcourse : (c.current.courses.find? (fun co => co.id = cid)).isSome = true)
    (hstudent : c.current.students.any (fun r => r.id = sid) = true)
    (hnew : c.current.enrollments.any
      (fun e => e.student_id = sid ∧ e.course_id = cid) = false) :
    ∃ c1, App.enroll_student p sid cid c = (c1, .ok "Student enrolled successfully") ∧
      (c1.current.enrollments.filter
         (fun e => e.student_id = sid ∧ e.course_id = cid)).length = 1 ∧
      App.enroll_student p sid cid c1 =
        (c1, .ok "Student already enrolled in this course") := by
  obtain ⟨co, hco⟩ := Option.isSome_iff_exists.mp hcourse
  have hanyEx : ∃ x ∈ c.current.courses, x.id = cid :=
    ⟨co, List.mem_of_find?_eq_some hco, by simpa using List.find?_some hco⟩
  have hstudentEx : ∃ r ∈ c.current.students, r.id = sid := by simpa using hstudent
  have hnewAll : ∀ x ∈ c.current.enrollments, x.student_id = sid → ¬ x.course_id = cid := by
    simpa using hnew
  have hnotex : ¬ ∃ x ∈ c.current.enrollments, x.student_id = sid ∧ x.course_id = cid := by
    simpa using hnew
  refine ⟨{ c with current := { c.current with
              enrollments := c.current.enrollments ++ [{ student_id := sid, course_id := cid }] } },
          ?_, ?_, ?_⟩
  · simp [App.enroll_student, hadmin, Db.get_course_by_id, execute_query,
          selCourseByIdQ, hco, Db.enroll_student, insEnrollmentQ,
          hnotex, hstudentEx, hanyEx]
  · simp [List.filter_append]
    exact hnewAll
  · have hpair : ∃ x ∈ c.current.enrollments ++
        [({ student_id := sid, course_id := cid } : Enrollment)],
        x.student_id = sid ∧ x.course_id = cid :=
      ⟨{ student_id := sid, course_id := cid }, by simp, by simp⟩
    simp [App.enroll_student, hadmin, Db.get_course_by_id, execute_query,
          selCourseByIdQ, hco, Db.enroll_student, insEnrollmentQ, hpair]

/-! ### Referential-integrity helper lemmas, one per mutating statement -/

theorem refIntegrity_insStudentQ (email ph : String) (nm : Option String)
    (s s' : DBState) (row : Student) (hInt : refIntegrity s)
    (hq : insStudentQ email ph nm s = .ok (s', row)) : refIntegrity s' := by
  unfold insStudentQ at hq
  split at hq
  · exact absurd hq (by simp)
  · simp only [Except.ok.injEq, Prod.mk.injEq] at hq
    obtain ⟨hs, -⟩ := hq
    subst hs
    intro e he
    obtain ⟨⟨r, hr, hrid⟩, co, hcomem, hcoid⟩ := hInt e he
    exact ⟨⟨r, List.mem_append_left _ hr, hrid⟩, co, hcomem, hcoid⟩

theorem refIntegrity_insAdminQ (u ph : String) (s s' : DBState) (hInt : refIntegrity s)
    (hq : insAdminQ u ph s = .ok (s', ())) : refIntegrity s' := by
  unfold insAdminQ at hq
  split at hq <;>
  · simp only [Except.ok.injEq, Prod.mk.injEq] at hq
    obtain ⟨hs, -⟩ := hq
    subst hs
    intro e he
    exact hInt e he

theorem refIntegrity_insCourseQ (t d : String) (cb : Nat)
    (s s' : DBState) (row : Course) (hInt : refIntegrity s)
    (hq : insCourseQ t d cb s = .ok (s', row)) : refIntegrity s' := by
  unfold insCourseQ at hq
  split at hq
  · simp only [Except.ok.injEq, Prod.mk.injEq] at hq
    obtain ⟨hs, -⟩ := hq
    subst hs
    intro e he
    obtain ⟨⟨r, hr, hrid⟩, co, hcomem, hcoid⟩ := hInt e he
    exact ⟨⟨r, hr, hrid⟩, co, List.mem_append_left _ hcomem, hcoid⟩
  · exact absurd hq (by simp)

theorem refIntegrity_updCourseQ (cid : Nat) (t d : String)
    (s s' : DBState) (r : Option Course) (hInt : refIntegrity s)
    (hq : updCourseQ cid t d s = .ok (s', r)) : refIntegrity s' := by
  unfold updCourseQ at hq
  simp only [Except.ok.injEq, Prod.mk.injEq] at hq
  obtain ⟨hs, -⟩ := hq
  subst hs
  intro e he
  obtain ⟨hstu, co, hcomem, hcoid⟩ := hInt e he
  refine ⟨hstu,
    (if co.id = cid then { co with title := t, description := d } else co), ?_, ?_⟩
  · exact List.mem_map_of_mem _ hcomem
  · by_cases h : co.id = cid
    · simpa [if_pos h] using hcoid
    · simpa [if_neg h] using hcoid

theorem refIntegrity_delCourseQ (cid : Nat) (s s' : DBState) (hInt : refIntegrity s)
    (hq : delCourseQ cid s = .ok (s', ())) : refIntegrity s' := by
  unfold delCourseQ at hq
  simp only [Except.ok.injEq, Prod.mk.injEq] at hq
  obtain ⟨hs, -⟩ := hq
  subst hs
  intro e he
  rw [List.mem_filter] at he
  obtain ⟨he, hne⟩ := he
  obtain ⟨hstu, co, hcomem, hcoid⟩ := hInt e he
  refine ⟨hstu, co, ?_, hcoid⟩
  rw [List.mem_filter]
  refine ⟨hcomem, ?_⟩
  simp only [decide_eq_true_eq] at hne ⊢
  omega

theorem refIntegrity_delStudentRowQ (sid : Nat) (s s' : DBState) (hInt : refIntegrity s)
    (hq : delStudentRowQ sid s = .ok (s', ())) : refIntegrity s' := by
  unfold delStudentRowQ at hq
  simp only [Except.ok.injEq, Prod.mk.injEq] at hq
  obtain ⟨hs, -⟩ := hq
  subst hs
  intro e he
  rw [List.mem_filter] at he
  obtain ⟨he, hne⟩ := he
  obtain ⟨⟨r, hr, hrid⟩, hco⟩ := hInt e he
  refine ⟨⟨r, ?_, hrid⟩, hco⟩
  rw [List.mem_filter]
  refine ⟨hr, ?_⟩
  simp only [decide_eq_true_eq] at hne ⊢
  omega

theorem refIntegrity_insEnrollmentQ (sid cid : Nat)
    (s s' : DBState) (r : Option Enrollment) (hInt : refIntegrity s)
    (hq : insEnrollmentQ sid cid s = .ok (s', r)) : refIntegrity s' := by
  unfold insEnrollmentQ at hq
  split at hq
  · simp only [Except.ok.injEq, Prod.mk.injEq] at hq
    obtain ⟨hs, -⟩ := hq
    subst hs
    exact hInt
  · split at hq
    · rename_i hfk
      simp only [Except.ok.injEq, Prod.mk.injEq] at hq
      obtain ⟨hs, -⟩ := hq
      subst hs
      intro e he
      rw [List.mem_append] at he
      rcases he with he | he
      · exact hInt e he
      · simp only [List.mem_singleton] at he
        subst he
        obtain ⟨h1, h2⟩ := hfk
        rw [List.any_eq_true] at h1 h2
        obtain ⟨r0, hr0, hr0id⟩ := h1
        obtain ⟨co, hco2, hco2id⟩ := h2
        exact ⟨⟨r0, hr0, by simpa using hr0id⟩, co, hco2, by simpa using hco2id⟩
    · exact absurd hq (by simp)

theorem refIntegrity_delEnrollmentQ (sid cid : Nat) (s s' : DBState) (hInt : refIntegrity s)
    (hq : delEnrollmentQ sid cid s = .ok (s', ())) : refIntegrity s' := by
  unfold delEnrollmentQ at hq
  simp only [Except.ok.injEq, Prod.mk.injEq] at hq
  obtain ⟨hs, -⟩ := hq
  subst hs
  intro e he
  rw [List.mem_filter] at he
  exact hInt e he.1

theorem studentCoursesRows_delete_course (c : Conn) (cid sid : Nat) :
    ∀ row ∈ studentCoursesRows sid ((Db.delete_course cid c).1).current, row.id ≠ cid := by
  intro row hrow
  have hstate : ((Db.delete_course cid c).1).current =
      { c.current with
        courses := c.current.courses.filter (fun x => x.id ≠ cid),
        enrollments := c.current.enrollments.filter (fun e => e.course_id ≠ cid) } := rfl
  rw [hstate] at hrow
  simp only [studentCoursesRows, List.mem_filterMap, Option.map_eq_some'] at hrow
  obtain ⟨e, he, co, hfind, hroweq⟩ := hrow
  rw [List.mem_reverse, List.mem_filter] at he
  obtain ⟨he2, -⟩ := he
  rw [List.mem_filter] at he2
  obtain ⟨-, hecid⟩ := he2
  have hcoid : co.id = e.course_id := by simpa using List.find?_some hfind
  subst hroweq
  simp only [decide_eq_true_eq] at hecid
  simpa [hcoid] using hecid

theorem courseStudentsRows_delete_student (sid cid : Nat) (s s' : DBState)
    (hq : delStudentRowQ sid s = .ok (s', ())) :
    ∀ row ∈ courseStudentsRows cid s', row.id ≠ sid := by
  unfold delStudentRowQ at hq
  simp only [Except.ok.injEq, Prod.mk.injEq] at hq
  obtain ⟨hs, -⟩ := hq
  subst hs
  intro row hrow
  simp only [courseStudentsRows, List.mem_filterMap, List.mem_reverse, List.mem_filter,
             Option.map_eq_some'] at hrow
  obtain ⟨e, -, r, hfind, hroweq⟩ := hrow
  have hrmem := List.mem_of_find?_eq_some hfind
  rw [List.mem_filter] at hrmem
  have hrid : r.id = e.student_id := by simpa using List.find?_some hfind
  subst hroweq
  have := hrmem.2
  simpa using this

/-- C8: every mutating SQL statement of the repository preserves the
invariant that each enrollment row references an existing student and an
existing course, and the schema cascades hold: after `delete_course` the
student-courses join mentions no row with the deleted course id, and after
a student-row delete the course-students join mentions no row with the
deleted student id. -/
theorem enrollment_integrity_and_cascade :
    (∀ email ph nm s s' row, refIntegrity s →
       insStudentQ email ph nm s = .ok (s', row) → refIntegrity s') ∧
    (∀ u ph s s', refIntegrity s → insAdminQ u ph s = .ok (s', ()) → refIntegrity s') ∧
    (∀ t d cb s s' row, refIntegrity s →
       insCourseQ t d cb s = .ok (s', row) → refIntegrity s') ∧
    (∀ cid t d s s' r, refIntegrity s →
       updCourseQ cid t d s = .ok (s', r) → refIntegrity s') ∧
    (∀ cid s s', refIntegrity s → delCourseQ cid s = .ok (s', ()) → refIntegrity s') ∧
    (∀ sid s s', refIntegrity s → delStudentRowQ sid s = .ok (s', ()) → refIntegrity s') ∧
    (∀ sid cid s s' r, refIntegrity s →
       insEnrollmentQ sid cid s = .ok (s', r) → refIntegrity s') ∧
    (∀ sid cid s s', refIntegrity s →
       delEnrollmentQ sid cid s = .ok (s', ()) → refIntegrity s') ∧
    (∀ c cid sid,
       ∀ row ∈ studentCoursesRows sid ((Db.delete_course cid c).1).current, row.id ≠ cid) ∧
    (∀ sid cid s s', delStudentRowQ sid s = .ok (s', ()) →
       ∀ row ∈ courseStudentsRows cid s', row.id ≠ sid) :=
  ⟨fun email ph nm s s' row => refIntegrity_insStudentQ email ph nm s s' row,
   fun u ph s s' => refIntegrity_insAdminQ u ph s s',
   fun t d cb s s' row => refIntegrity_insCourseQ t d cb s s' row,
   fun cid t d s s' r => refIntegrity_updCourseQ cid t d s s' r,
   fun cid s s' => refIntegrity_delCourseQ cid s s',
   fun sid s s' => refIntegrity_delStudentRowQ sid s s',
   fun sid cid s s' r => refIntegrity_insEnrollmentQ sid cid s s' r,
   fun sid cid s s' => refIntegrity_delEnrollmentQ sid cid s s',
   fun c cid sid => studentCoursesRows_delete_course c cid sid,
   fun sid cid s s' => courseStudentsRows_delete_student sid cid s s'⟩

/-- Witness for C8: enrolling (1, 1) on `demoState` preserves the
invariant, and deleting course 1 afterwards leaves a join with no row
mentioning course 1. -/
theorem enrollment_integrity_and_cascade_witness :
    refIntegrity { demoState with enrollments := [{ student_id := 1, course_id := 1 }] } ∧
    (∀ row ∈ studentCoursesRows 1
       ((Db.delete_course 1 (Conn.fresh
          { demoState with
            enrollments := [{ student_id := 1, course_id := 1 }] })).1).current,
       row.id ≠ 1) :=
  ⟨enrollment_integrity_and_cascade.2.2.2.2.2.2.1 1 1 demoState
     { demoState with enrollments := [{ student_id := 1, course_id := 1 }] }
     (some { student_id := 1, course_id := 1 }) (by decide) rfl,
   enrollment_integrity_and_cascade.2.2.2.2.2.2.2.2.1
     (Conn.fresh { demoState with enrollments := [{ student_id := 1, course_id := 1 }] }) 1 1⟩

/-- Witness for C5: enrolling student 1 in course 1 of `demoState` twice. -/
theorem enroll_twice_one_row_witness :
    ∃ c1, App.enroll_student adminPayload 1 1 (Conn.fresh demoState) =
        (c1, .ok "Student enrolled successfully") ∧
      (c1.current.enrollments.filter
         (fun e => e.student_id = 1 ∧ e.course_id = 1)).length = 1 ∧
      App.enroll_student adminPayload 1 1 c1 =
        (c1, .ok "Student already enrolled in this course") :=
  enroll_twice_one_row adminPayload 1 1 (Conn.fresh demoState)
    rfl (by decide) (by decide) (by decide)

end Sloka
